import Mathlib

/-!
Shallow embedding of the dating-app backend's Interaction Engine
(`src/controllers/user/matchingController.js`, with the legacy variant in
`src/unnamed/part_003`) and Chat Thread Manager
(`src/controllers/user/chatController.js`, helper in `src/utils/staticValues.js`),
together with theorems settling the claims about the state machine, counters,
conversation identity and bot-reply handling.

Machine integers are modelled as `Int` (SQL signed integers); SQL
`GREATEST(x - 1, 0)` is `max (x - 1) 0`, and a bare `increment` by `-1` is an
unclamped subtraction. Database rows keyed by id pairs are total functions to
`Option`; row lists (chats, messages) are Lean lists in insertion order.
-/

namespace DatingApp

/-- `User.type` column: `"bot"` or `"real"`. -/
inductive UType where
  | bot
  | real
deriving DecidableEq

/-- `UserInteraction.action` enum: `like / reject / match`. -/
inductive Action where
  | like
  | reject
  | matched
deriving DecidableEq

/-- One `pb_user_interactions` row, keyed externally by `(user_id, target_user_id)`. -/
structure Edge where
  action : Action
  is_mutual : Bool
deriving DecidableEq

/-- The fields of a `pb_users` row consulted by the Interaction Engine. -/
structure UserRec where
  utype : UType
  is_active : Bool
  status : Nat
  total_likes : Int
  total_matches : Int
  total_rejects : Int
deriving DecidableEq

/-- `Chat.chat_status_p1 / chat_status_p2` enum. -/
inductive ChatStatus where
  | active
  | blocked
  | deleted
deriving DecidableEq

/-- One `pb_chats` row (fields used by the claims). -/
structure ChatRec where
  id : Nat
  participant_1_id : Nat
  participant_2_id : Nat
  last_message_id : Option Nat
  unread_count_p1 : Nat
  unread_count_p2 : Nat
  is_archived_p1 : Bool
  is_archived_p2 : Bool
  chat_status_p1 : ChatStatus
  chat_status_p2 : ChatStatus
deriving DecidableEq

/-- One `pb_messages` row (fields used by `sendMessage`). -/
structure MessageRec where
  id : Nat
  chat_id : Nat
  sender_id : Nat
  receiver_id : Nat
  message : String
  reply_id : Option Nat
  sender_type : UType
  status : String
deriving DecidableEq

/-- The database state shared by the Interaction Engine and the Chat Thread Manager. -/
structure DB where
  users : Nat → Option UserRec
  edges : Nat → Nat → Option Edge
  chats : List ChatRec
  messages : List MessageRec
  nextChatId : Nat
  nextMessageId : Nat

/-- Upsert of the interaction row `(a, b)` (both the `update` and `create` branches
of the source collapse to overwriting the current-state snapshot). -/
def setEdge (edges : Nat → Nat → Option Edge) (a b : Nat) (e : Edge) :
    Nat → Nat → Option Edge :=
  fun x y => if x = a ∧ y = b then some e else edges x y

/-- `User.update / User.increment` with `where id = i`. -/
def updUser (users : Nat → Option UserRec) (i : Nat) (g : UserRec → UserRec) :
    Nat → Option UserRec :=
  fun x => if x = i then (users x).map g else users x

/-- `User.update` with `where id IN (i, j)`. -/
def updUserPair (users : Nat → Option UserRec) (i j : Nat) (g : UserRec → UserRec) :
    Nat → Option UserRec :=
  fun x => if x = i ∨ x = j then (users x).map g else users x

/-- `getOrCreateChatBetweenUsers` from `src/utils/staticValues.js`: normalizes the
pair to (smaller, larger), looks up only that canonical order, creates the row
with zero unread counts and active status on both sides when absent. -/
def getOrCreateChatBetweenUsers (db : DB) (userIdA userIdB : Nat) : DB × ChatRec :=
  let p1 := if userIdA < userIdB then userIdA else userIdB
  let p2 := if userIdA < userIdB then userIdB else userIdA
  match db.chats.find? (fun c => c.participant_1_id == p1 && c.participant_2_id == p2) with
  | some chat => (db, chat)
  | none =>
    let chat : ChatRec :=
      { id := db.nextChatId
        participant_1_id := p1
        participant_2_id := p2
        last_message_id := none
        unread_count_p1 := 0
        unread_count_p2 := 0
        is_archived_p1 := false
        is_archived_p2 := false
        chat_status_p1 := .active
        chat_status_p2 := .active }
    ({ db with chats := db.chats ++ [chat], nextChatId := db.nextChatId + 1 }, chat)

/-- Responses of `likeUser` (`src/controllers/user/matchingController.js`).
`thrown` models the ReferenceError raised at line 206: the success body reads
the identifier `isBot`, which is never defined (the variable is `isTargetBot`),
so after `transaction.commit()` the handler throws instead of returning the
200 payload; the caller receives an internal failure while the state persists. -/
inductive LikeResp where
  | cannotLikeSelf
  | targetNotFound
  | alreadyLikedOrMatched
  | thrown
deriving DecidableEq

/-- `likeUser` from `src/controllers/user/matchingController.js` (state-changing
core, session and payload validation resolved upstream). -/
def likeUser (db : DB) (userId targetUserId : Nat) : DB × LikeResp :=
  if userId = targetUserId then (db, .cannotLikeSelf)
  else
    match db.users targetUserId with
    | none => (db, .targetNotFound)
    | some targetUser =>
      if targetUser.is_active = false ∨ targetUser.status ≠ 1 then (db, .targetNotFound)
      else
        let previousAction : Option Action := (db.edges userId targetUserId).map Edge.action
        if previousAction = some .like ∨ previousAction = some .matched then
          (db, .alreadyLikedOrMatched)
        else
          let isTargetBot : Bool := decide (targetUser.utype = UType.bot)
          let reverseAction : Option Action := (db.edges targetUserId userId).map Edge.action
          let isHumanMutual : Bool := !isTargetBot && decide (reverseAction = some Action.like)
          let isMatch : Bool := isTargetBot || isHumanMutual
          let newAction : Action := if isMatch then .matched else .like
          let edges1 := setEdge db.edges userId targetUserId ⟨newAction, isMatch⟩
          let edges2 :=
            if isMatch then setEdge edges1 targetUserId userId ⟨.matched, true⟩ else edges1
          let isNewMatch : Bool :=
            isMatch &&
              (decide (previousAction ≠ some Action.matched) ||
                decide (reverseAction ≠ some Action.matched))
          let users1 :=
            if isNewMatch then
              updUserPair db.users userId targetUserId
                (fun u => { u with total_matches := u.total_matches + 1 })
            else db.users
          let users2 :=
            if previousAction = some .reject then
              updUser users1 userId (fun u =>
                { u with
                    total_likes := u.total_likes + 1
                    total_rejects := max (u.total_rejects - 1) 0 })
            else if previousAction = none then
              updUser users1 userId (fun u => { u with total_likes := u.total_likes + 1 })
            else users1
          let db1 : DB := { db with edges := edges2, users := users2 }
          let db2 : DB :=
            if isMatch then (getOrCreateChatBetweenUsers db1 userId targetUserId).1 else db1
          (db2, .thrown)

/-- Responses of `rejectUser`. -/
inductive RejectResp where
  | cannotRejectSelf
  | targetNotFound
  | rejected
deriving DecidableEq

/-- `rejectUser` from `src/controllers/user/matchingController.js`. -/
def rejectUser (db : DB) (userId targetUserId : Nat) : DB × RejectResp :=
  if userId = targetUserId then (db, .cannotRejectSelf)
  else
    match db.users targetUserId with
    | none => (db, .targetNotFound)
    | some targetUser =>
      if targetUser.is_active = false ∨ targetUser.status ≠ 1 then (db, .targetNotFound)
      else
        let previousAction : Option Action := (db.edges userId targetUserId).map Edge.action
        let reverse : Option Edge := db.edges targetUserId userId
        let reverseAction : Option Action := reverse.map Edge.action
        if previousAction = some .reject then (db, .rejected)
        else
          let edges1 := setEdge db.edges userId targetUserId ⟨.reject, false⟩
          let wasMatch : Bool :=
            decide (previousAction = some Action.matched) ||
              decide (reverseAction = some Action.matched)
          let edges2 :=
            if wasMatch then
              match reverse with
              | some r =>
                let nextReverseAction : Action :=
                  if r.action = .matched then .reject else r.action
                setEdge edges1 targetUserId userId ⟨nextReverseAction, false⟩
              | none => edges1
            else edges1
          let users1 :=
            if wasMatch then
              updUserPair db.users userId targetUserId
                (fun u => { u with total_matches := max (u.total_matches - 1) 0 })
            else db.users
          let users2 :=
            if previousAction = some .like ∨ previousAction = some .matched then
              updUser users1 userId (fun u =>
                { u with
                    total_likes := max (u.total_likes - 1) 0
                    total_rejects := u.total_rejects + 1 })
            else
              updUser users1 userId (fun u => { u with total_rejects := u.total_rejects + 1 })
          ({ db with edges := edges2, users := users2 }, .rejected)

/-- `makeMutualMatch` from `src/controllers/user/matchingController.js`: if no
`(userId, botId)` row with `action = match, is_mutual = true` exists, upserts both
directions as mutual match; the `total_matches` increment below it names only
`userId` in its `where` clause. Returns the `newlyCreated` flag. -/
def makeMutualMatch (users : Nat → Option UserRec) (edges : Nat → Nat → Option Edge)
    (userId botId : Nat) :
    ((Nat → Option UserRec) × (Nat → Nat → Option Edge)) × Bool :=
  let isExisting : Bool :=
    match edges userId botId with
    | some e => decide (e.action = Action.matched) && e.is_mutual
    | none => false
  if isExisting then ((users, edges), false)
  else
    let edges1 := setEdge edges userId botId ⟨.matched, true⟩
    let edges2 := setEdge edges1 botId userId ⟨.matched, true⟩
    let users1 := updUser users userId (fun u => { u with total_matches := u.total_matches + 1 })
    ((users1, edges2), true)

/-- Responses of `matchUser`. -/
inductive MatchResp where
  | cannotMatchSelf
  | targetNotFoundOrInactive
  | onlyBots
  | matchedOk (isNewMatch : Bool)
deriving DecidableEq

/-- `matchUser` from `src/controllers/user/matchingController.js`: the direct
match operation (target must be an active bot). The `reject → match` counter
transition uses `User.increment` with `-1`, with no clamping. -/
def matchUser (db : DB) (userId targetUserId : Nat) : DB × MatchResp :=
  if userId = targetUserId then (db, .cannotMatchSelf)
  else
    match db.users targetUserId with
    | none => (db, .targetNotFoundOrInactive)
    | some targetUser =>
      if targetUser.is_active = false then (db, .targetNotFoundOrInactive)
      else if targetUser.utype ≠ .bot then (db, .onlyBots)
      else
        let previousAction : Option Action := (db.edges userId targetUserId).map Edge.action
        let users1 :=
          if previousAction = some .like ∨ previousAction = some .matched then db.users
          else if previousAction = some .reject then
            updUser db.users userId (fun u =>
              { u with
                  total_likes := u.total_likes + 1
                  total_rejects := u.total_rejects - 1 })
          else
            updUser db.users userId (fun u => { u with total_likes := u.total_likes + 1 })
        let step := makeMutualMatch users1 db.edges userId targetUserId
        let db1 : DB := { db with users := step.1.1, edges := step.1.2 }
        let db2 : DB :=
          if step.2 then (getOrCreateChatBetweenUsers db1 userId targetUserId).1 else db1
        (db2, .matchedOk step.2)

namespace Part003

/-- Responses of the legacy `likeUser` in `src/unnamed/part_003`. -/
inductive LikeResp where
  | cannotLikeSelf
  | targetNotFoundOrInactive
  | onlyBots
  | liked (isMatch : Bool) (chatId : Nat)
deriving DecidableEq

/-- `likeUser` from `src/unnamed/part_003`: bot-only targets; the forward row is
upserted as `action = "like", is_mutual: true` (user-to-bot as instant mutual),
with no reverse row written; the `reject → like` counter transition increments
`{ total_likes: 1, total_rejects: -1 }` with no clamping. -/
def likeUser (db : DB) (userId targetUserId : Nat) : DB × LikeResp :=
  if userId = targetUserId then (db, .cannotLikeSelf)
  else
    match db.users targetUserId with
    | none => (db, .targetNotFoundOrInactive)
    | some targetUser =>
      if targetUser.is_active = false then (db, .targetNotFoundOrInactive)
      else if targetUser.utype ≠ .bot then (db, .onlyBots)
      else
        let previousAction : Option Action := (db.edges userId targetUserId).map Edge.action
        let edges1 := setEdge db.edges userId targetUserId ⟨.like, true⟩
        let users1 :=
          if previousAction = some .like then db.users
          else if previousAction = some .reject then
            updUser db.users userId (fun u =>
              { u with
                  total_likes := u.total_likes + 1
                  total_rejects := u.total_rejects - 1 })
          else
            updUser db.users userId (fun u => { u with total_likes := u.total_likes + 1 })
        let db1 : DB := { db with edges := edges1, users := users1 }
        let step := getOrCreateChatBetweenUsers db1 userId targetUserId
        (step.1, .liked true step.2.id)

end Part003

/-- The `!message || !message.trim()` guard of `sendMessage`: the message is
refused when it is empty or trims to the empty string, i.e. when every
character is whitespace. -/
def isBlank (s : String) : Bool :=
  s.data.all Char.isWhitespace

/-- Responses of `sendMessage` (`src/controllers/user/chatController.js`).
`ok` carries the chat id, the stored human message id, and the bot message id
when a bot reply was appended. -/
inductive SendResp where
  | messageRequired
  | chatNotFound
  | receiverRequired
  | selfChat
  | notPartOfChat
  | senderNotFound
  | receiverNotFound
  | invalidReplyId
  | replyNotFoundInChat
  | ok (chatId userMessageId : Nat) (botMessageId : Option Nat)
deriving DecidableEq

/-- The part of `sendMessage` after the chat is resolved (or freshly created).
`orig` is the state at transaction start: every error path rolls the whole
transaction back, discarding a chat row created earlier in the same call.
`gen` is the outcome of the external `generateBotReplyForChat` call; it is
consulted only after the human message has been committed, and its failure is
caught and logged without touching the committed state. -/
def sendMessageCore (orig db : DB) (userId : Nat) (chat : ChatRec) (receiverId : Nat)
    (message : String) (replyToMessageId : Option Nat) (gen : Except Unit String) :
    DB × SendResp :=
  if chat.participant_1_id ≠ userId ∧ chat.participant_2_id ≠ userId then
    (orig, .notPartOfChat)
  else
    match db.users userId with
    | none => (orig, .senderNotFound)
    | some _sender =>
      match db.users receiverId with
      | none => (orig, .receiverNotFound)
      | some receiver =>
        let replyStep : Except SendResp (Option MessageRec) :=
          match replyToMessageId with
          | none => .ok none
          | some rid =>
            if rid = 0 then .error .invalidReplyId
            else
              match db.messages.find? (fun m => m.id == rid && m.chat_id == chat.id) with
              | none => .error .replyNotFoundInChat
              | some m => .ok (some m)
        match replyStep with
        | .error e => (orig, e)
        | .ok repliedMessage =>
          let userMessage : MessageRec :=
            { id := db.nextMessageId
              chat_id := chat.id
              sender_id := userId
              receiver_id := receiverId
              message := message
              reply_id := repliedMessage.map MessageRec.id
              sender_type := .real
              status := "sent" }
          let isSenderP1 : Bool := decide (chat.participant_1_id = userId)
          let chat1 : ChatRec :=
            { chat with
                last_message_id := some userMessage.id
                unread_count_p1 :=
                  if isSenderP1 then chat.unread_count_p1 else chat.unread_count_p1 + 1
                unread_count_p2 :=
                  if isSenderP1 then chat.unread_count_p2 + 1 else chat.unread_count_p2 }
          let committed : DB :=
            { db with
                messages := db.messages ++ [userMessage]
                chats := db.chats.map (fun c => if c.id = chat.id then chat1 else c)
                nextMessageId := db.nextMessageId + 1 }
          if receiver.utype = UType.bot then
            match gen with
            | .error _ => (committed, .ok chat.id userMessage.id none)
            | .ok botReplyText =>
              let botMessage : MessageRec :=
                { id := committed.nextMessageId
                  chat_id := chat.id
                  sender_id := receiverId
                  receiver_id := userId
                  message := botReplyText
                  reply_id := some userMessage.id
                  sender_type := .bot
                  status := "sent" }
              let chat2 : ChatRec :=
                { chat1 with
                    last_message_id := some botMessage.id
                    unread_count_p1 :=
                      if isSenderP1 then chat1.unread_count_p1 + 1 else chat1.unread_count_p1
                    unread_count_p2 :=
                      if isSenderP1 then chat1.unread_count_p2 else chat1.unread_count_p2 + 1 }
              let final : DB :=
                { committed with
                    messages := committed.messages ++ [botMessage]
                    chats := committed.chats.map (fun c => if c.id = chat.id then chat2 else c)
                    nextMessageId := committed.nextMessageId + 1 }
              (final, .ok chat.id userMessage.id (some botMessage.id))
          else (committed, .ok chat.id userMessage.id none)

/-- `sendMessage` from `src/controllers/user/chatController.js`. When `chatIdParam`
is absent the chat is looked up by the pair in either order but created as
`(participant_1_id := userId, participant_2_id := receiverId)` — the sender first,
with no canonical ordering. No `chat_status` field is ever consulted. -/
def sendMessage (db : DB) (userId : Nat) (chatIdParam : Option Nat)
    (receiverIdBody : Option Nat) (message : String) (replyToMessageId : Option Nat)
    (gen : Except Unit String) : DB × SendResp :=
  if isBlank message then (db, .messageRequired)
  else
    match chatIdParam with
    | some chatId =>
      match db.chats.find? (fun c => c.id == chatId) with
      | none => (db, .chatNotFound)
      | some chat =>
        let receiverId :=
          if chat.participant_1_id = userId then chat.participant_2_id
          else chat.participant_1_id
        sendMessageCore db db userId chat receiverId message replyToMessageId gen
    | none =>
      match receiverIdBody with
      | none => (db, .receiverRequired)
      | some receiverId =>
        if receiverId = 0 then (db, .receiverRequired)
        else if receiverId = userId then (db, .selfChat)
        else
          match db.chats.find? (fun c =>
              (c.participant_1_id == userId && c.participant_2_id == receiverId) ||
                (c.participant_1_id == receiverId && c.participant_2_id == userId)) with
          | some chat =>
            sendMessageCore db db userId chat receiverId message replyToMessageId gen
          | none =>
            let chat : ChatRec :=
              { id := db.nextChatId
                participant_1_id := userId
                participant_2_id := receiverId
                last_message_id := none
                unread_count_p1 := 0
                unread_count_p2 := 0
                is_archived_p1 := false
                is_archived_p2 := false
                chat_status_p1 := .active
                chat_status_p2 := .active }
            let db1 : DB :=
              { db with chats := db.chats ++ [chat], nextChatId := db.nextChatId + 1 }
            sendMessageCore db db1 userId chat receiverId message replyToMessageId gen

/-- Modelled from the spec: the `blockChat` controller behind `POST /chats/:chatId/block`
is declared in the routes file (`src/unnamed/part_001`) but its implementation is
not among the source files. Per the route documentation and the spec it sets
`chat_status_p1` or `chat_status_p2` to `blocked` for the calling participant
only, idempotently, leaving the other side's status untouched. -/
def blockChat (db : DB) (userId chatId : Nat) : DB :=
  { db with
      chats := db.chats.map (fun c =>
        if c.id = chatId then
          if c.participant_1_id = userId then { c with chat_status_p1 := .blocked }
          else if c.participant_2_id = userId then { c with chat_status_p2 := .blocked }
          else c
        else c) }

/-- One Interaction Engine request, as dispatched by the matching controller. -/
inductive EngineOp where
  | like (actor target : Nat)
  | reject (actor target : Nat)
  | directMatch (actor target : Nat)
deriving DecidableEq

/-- State effect of one Interaction Engine request. -/
def applyOp (db : DB) : EngineOp → DB
  | .like a t => (likeUser db a t).1
  | .reject a t => (rejectUser db a t).1
  | .directMatch a t => (matchUser db a t).1

/-- State effect of a sequence of Interaction Engine requests. -/
def applyOps (db : DB) (ops : List EngineOp) : DB :=
  ops.foldl applyOp db

/-- Non-negativity of one user row's counters. -/
def UserNonneg (u : UserRec) : Prop :=
  0 ≤ u.total_likes ∧ 0 ≤ u.total_matches ∧ 0 ≤ u.total_rejects

/-- Non-negativity over a whole user table. -/
def UsersNonneg (users : Nat → Option UserRec) : Prop :=
  ∀ i u, users i = some u → UserNonneg u

/-- The counter invariant of the spec: every stored counter is non-negative. -/
def CountersNonneg (db : DB) : Prop :=
  UsersNonneg db.users

/-- Classifier for the direct match operation among the engine requests. -/
def EngineOp.isDirectMatch : EngineOp → Bool
  | .directMatch _ _ => true
  | _ => false

/-- Bilaterality over an interaction table: a `mutual = true` edge has
`action = match` and a counterpart edge that is also a mutual match. -/
def EdgesSymm (edges : Nat → Nat → Option Edge) : Prop :=
  ∀ a b e, edges a b = some e → e.is_mutual = true →
    e.action = Action.matched ∧ edges b a = some ⟨Action.matched, true⟩

/-- The bilaterality invariant of the spec, as a state predicate. -/
def MutualSymm (db : DB) : Prop :=
  EdgesSymm db.edges

/-! ### Concrete fixtures used by witnesses and counterexamples -/

/-- An active user row with all counters zero. -/
def freshUser (t : UType) : UserRec := ⟨t, true, 1, 0, 0, 0⟩

/-- User 1 is a real user, user 2 an active bot; no interactions, no chats. -/
def dbW : DB :=
  { users := fun i =>
      if i = 1 then some (freshUser .real)
      else if i = 2 then some (freshUser .bot) else none
    edges := fun _ _ => none
    chats := []
    messages := []
    nextChatId := 1
    nextMessageId := 1 }

/-- Two real users with ids 3 and 5; no interactions, no chats. -/
def dbP : DB :=
  { users := fun i =>
      if i = 3 then some (freshUser .real)
      else if i = 5 then some (freshUser .real) else none
    edges := fun _ _ => none
    chats := []
    messages := []
    nextChatId := 1
    nextMessageId := 1 }

/-- Two real users 1 and 2 sharing the active chat 1. -/
def dbB : DB :=
  { users := fun i =>
      if i = 1 then some (freshUser .real)
      else if i = 2 then some (freshUser .real) else none
    edges := fun _ _ => none
    chats := [⟨1, 1, 2, none, 0, 0, false, false, .active, .active⟩]
    messages := []
    nextChatId := 2
    nextMessageId := 1 }

/-- Real user 1 and bot 2, mutually matched (both edges `match, mutual`),
both holding `total_matches = 1`, with their provisioned chat 1. -/
def dbM : DB :=
  { users := fun i =>
      if i = 1 then some ⟨.real, true, 1, 1, 1, 0⟩
      else if i = 2 then some ⟨.bot, true, 1, 0, 1, 0⟩ else none
    edges := fun a b =>
      if (a = 1 ∧ b = 2) ∨ (a = 2 ∧ b = 1) then some ⟨.matched, true⟩ else none
    chats := [⟨1, 1, 2, none, 0, 0, false, false, .active, .active⟩]
    messages := []
    nextChatId := 2
    nextMessageId := 1 }

/-- Real user 1 and bot 2 with the active chat 1 between them and no messages. -/
def dbC10 : DB :=
  { users := fun i =>
      if i = 1 then some (freshUser .real)
      else if i = 2 then some (freshUser .bot) else none
    edges := fun _ _ => none
    chats := [⟨1, 1, 2, none, 0, 0, false, false, .active, .active⟩]
    messages := []
    nextChatId := 2
    nextMessageId := 1 }

/-! ### Helper lemmas about the store primitives -/

theorem setEdge_self (edges : Nat → Nat → Option Edge) (a b : Nat) (e : Edge) :
    setEdge edges a b e a b = some e := by
  simp [setEdge]

theorem setEdge_ne (edges : Nat → Nat → Option Edge) (a b x y : Nat) (e : Edge)
    (h : ¬(x = a ∧ y = b)) : setEdge edges a b e x y = edges x y := by
  simp [setEdge, h]

theorem getOrCreateChat_users (db : DB) (a b : Nat) :
    (getOrCreateChatBetweenUsers db a b).1.users = db.users := by
  unfold getOrCreateChatBetweenUsers
  cases h : db.chats.find? (fun c =>
      c.participant_1_id == (if a < b then a else b) &&
        c.participant_2_id == (if a < b then b else a)) <;> simp [h]

theorem getOrCreateChat_edges (db : DB) (a b : Nat) :
    (getOrCreateChatBetweenUsers db a b).1.edges = db.edges := by
  unfold getOrCreateChatBetweenUsers
  cases h : db.chats.find? (fun c =>
      c.participant_1_id == (if a < b then a else b) &&
        c.participant_2_id == (if a < b then b else a)) <;> simp [h]

theorem usersNonneg_updUser {users : Nat → Option UserRec} {i : Nat} {g : UserRec → UserRec}
    (h : UsersNonneg users) (hg : ∀ u, UserNonneg u → UserNonneg (g u)) :
    UsersNonneg (updUser users i g) := by
  intro j u hj
  unfold updUser at hj
  by_cases hij : j = i
  · simp only [hij, if_pos rfl] at hj
    cases hu : users i with
    | none => rw [hu] at hj; simp at hj
    | some v =>
      rw [hu] at hj
      simp only [Option.map_some'] at hj
      cases hj
      exact hg v (h i v hu)
  · simp only [if_neg hij] at hj
    exact h j u hj

theorem usersNonneg_updUserPair {users : Nat → Option UserRec} {i j : Nat}
    {g : UserRec → UserRec}
    (h : UsersNonneg users) (hg : ∀ u, UserNonneg u → UserNonneg (g u)) :
    UsersNonneg (updUserPair users i j g) := by
  intro k u hk
  unfold updUserPair at hk
  by_cases hij : k = i ∨ k = j
  · simp only [if_pos hij] at hk
    cases hu : users k with
    | none => rw [hu] at hk; simp at hk
    | some v =>
      rw [hu] at hk
      simp only [Option.map_some'] at hk
      cases hk
      exact hg v (h k v hu)
  · simp only [if_neg hij] at hk
    exact h k u hk

theorem nonneg_matches_add (u : UserRec) (hu : UserNonneg u) :
    UserNonneg { u with total_matches := u.total_matches + 1 } := by
  obtain ⟨h1, h2, h3⟩ := hu
  refine ⟨?_, ?_, ?_⟩ <;> dsimp only <;> omega

theorem nonneg_like_from_reject (u : UserRec) (hu : UserNonneg u) :
    UserNonneg { u with
      total_likes := u.total_likes + 1
      total_rejects := max (u.total_rejects - 1) 0 } := by
  obtain ⟨h1, h2, h3⟩ := hu
  refine ⟨?_, ?_, ?_⟩ <;> dsimp only
  · omega
  · omega
  · exact le_max_right _ _

theorem nonneg_like_add (u : UserRec) (hu : UserNonneg u) :
    UserNonneg { u with total_likes := u.total_likes + 1 } := by
  obtain ⟨h1, h2, h3⟩ := hu
  refine ⟨?_, ?_, ?_⟩ <;> dsimp only <;> omega

theorem nonneg_matches_clamp (u : UserRec) (hu : UserNonneg u) :
    UserNonneg { u with total_matches := max (u.total_matches - 1) 0 } := by
  obtain ⟨h1, h2, h3⟩ := hu
  refine ⟨?_, ?_, ?_⟩ <;> dsimp only
  · omega
  · exact le_max_right _ _
  · omega

theorem nonneg_reject_from_like (u : UserRec) (hu : UserNonneg u) :
    UserNonneg { u with
      total_likes := max (u.total_likes - 1) 0
      total_rejects := u.total_rejects + 1 } := by
  obtain ⟨h1, h2, h3⟩ := hu
  refine ⟨?_, ?_, ?_⟩ <;> dsimp only
  · exact le_max_right _ _
  · omega
  · omega

theorem nonneg_reject_add (u : UserRec) (hu : UserNonneg u) :
    UserNonneg { u with total_rejects := u.total_rejects + 1 } := by
  obtain ⟨h1, h2, h3⟩ := hu
  refine ⟨?_, ?_, ?_⟩ <;> dsimp only <;> omega

/-- `likeUser` only ever adds one to a counter or clamps a decrement with
`GREATEST(..., 0)`, so it keeps every counter non-negative. -/
theorem likeUser_preserves_nonneg (db : DB) (a t : Nat) (h : UsersNonneg db.users) :
    UsersNonneg ((likeUser db a t).1.users) := by
  unfold likeUser
  split
  · exact h
  split
  · exact h
  split
  · exact h
  dsimp only
  split
  · exact h
  split
  · rw [getOrCreateChat_users]
    dsimp only
    split
    · apply usersNonneg_updUser _ nonneg_like_from_reject
      split
      · exact usersNonneg_updUserPair h nonneg_matches_add
      · exact h
    split
    · apply usersNonneg_updUser _ nonneg_like_add
      split
      · exact usersNonneg_updUserPair h nonneg_matches_add
      · exact h
    split
    · exact usersNonneg_updUserPair h nonneg_matches_add
    · exact h
  · dsimp only
    split
    · apply usersNonneg_updUser _ nonneg_like_from_reject
      split
      · exact usersNonneg_updUserPair h nonneg_matches_add
      · exact h
    split
    · apply usersNonneg_updUser _ nonneg_like_add
      split
      · exact usersNonneg_updUserPair h nonneg_matches_add
      · exact h
    split
    · exact usersNonneg_updUserPair h nonneg_matches_add
    · exact h

/-- Writing both directions of a pair as `match, mutual` preserves bilaterality. -/
theorem edgesSymm_setMatchPair (edges : Nat → Nat → Option Edge) (a b : Nat)
    (h : EdgesSymm edges) :
    EdgesSymm (setEdge (setEdge edges a b ⟨.matched, true⟩) b a ⟨.matched, true⟩) := by
  intro x y e hxy hmut
  unfold setEdge at hxy ⊢
  by_cases h1 : x = b ∧ y = a
  · rw [if_pos h1] at hxy
    cases hxy
    refine ⟨rfl, ?_⟩
    obtain ⟨hx, hy⟩ := h1
    rw [hx, hy]
    by_cases hab : a = b
    · simp [hab]
    · simp [hab, Ne.symm hab]
  · rw [if_neg h1] at hxy
    by_cases h2 : x = a ∧ y = b
    · rw [if_pos h2] at hxy
      cases hxy
      refine ⟨rfl, ?_⟩
      obtain ⟨hx, hy⟩ := h2
      rw [hx, hy]
      simp
    · rw [if_neg h2] at hxy
      obtain ⟨hact, hcount⟩ := h x y e hxy hmut
      refine ⟨hact, ?_⟩
      by_cases h3 : y = b ∧ x = a
      · rw [if_pos h3]
      · rw [if_neg h3]
        by_cases h4 : y = a ∧ x = b
        · rw [if_pos h4]
        · rw [if_neg h4]
          exact hcount

/-- Writing one direction as a non-mutual edge preserves bilaterality, provided
the reverse direction is not currently a mutual edge. -/
theorem edgesSymm_setNonmutual (edges : Nat → Nat → Option Edge) (a b : Nat) (e : Edge)
    (he : e.is_mutual = false) (h : EdgesSymm edges)
    (hrev : ∀ r, edges b a = some r → r.is_mutual = false) :
    EdgesSymm (setEdge edges a b e) := by
  intro x y e2 hxy hmut
  unfold setEdge at hxy ⊢
  by_cases h1 : x = a ∧ y = b
  · rw [if_pos h1] at hxy
    cases hxy
    rw [he] at hmut
    exact absurd hmut (by simp)
  · rw [if_neg h1] at hxy
    obtain ⟨hact, hcount⟩ := h x y e2 hxy hmut
    refine ⟨hact, ?_⟩
    by_cases h2 : y = a ∧ x = b
    · obtain ⟨hy, hx⟩ := h2
      subst hy; subst hx
      exact absurd (hrev e2 hxy) (by simp [hmut])
    · rw [if_neg h2]
      exact hcount

/-- Overwriting both directions of a pair with non-mutual edges preserves
bilaterality. -/
theorem edgesSymm_breakPair (edges : Nat → Nat → Option Edge) (a b : Nat)
    (e1 e2 : Edge) (h1 : e1.is_mutual = false) (h2 : e2.is_mutual = false)
    (h : EdgesSymm edges) :
    EdgesSymm (setEdge (setEdge edges a b e1) b a e2) := by
  intro x y e hxy hmut
  unfold setEdge at hxy ⊢
  by_cases hc1 : x = b ∧ y = a
  · rw [if_pos hc1] at hxy
    cases hxy
    rw [h2] at hmut
    exact absurd hmut (by simp)
  · rw [if_neg hc1] at hxy
    by_cases hc2 : x = a ∧ y = b
    · rw [if_pos hc2] at hxy
      cases hxy
      rw [h1] at hmut
      exact absurd hmut (by simp)
    · rw [if_neg hc2] at hxy
      obtain ⟨hact, hcount⟩ := h x y e hxy hmut
      refine ⟨hact, ?_⟩
      by_cases hc3 : y = b ∧ x = a
      · exact absurd ⟨hc3.2, hc3.1⟩ hc2
      · rw [if_neg hc3]
        by_cases hc4 : y = a ∧ x = b
        · exact absurd ⟨hc4.2, hc4.1⟩ hc1
        · rw [if_neg hc4]
          exact hcount

/-- The mutual-match upserts of `makeMutualMatch` preserve bilaterality. -/
theorem makeMutualMatch_edgesSymm (users : Nat → Option UserRec)
    (edges : Nat → Nat → Option Edge) (a t : Nat) (h : EdgesSymm edges) :
    EdgesSymm (makeMutualMatch users edges a t).1.2 := by
  unfold makeMutualMatch
  dsimp only
  split
  · exact h
  · exact edgesSymm_setMatchPair edges a t h

/-- `likeUser` preserves the bilaterality invariant: a match writes both
directions symmetrically, and a plain like is written non-mutual against a
reverse side that cannot be a mutual edge (a mutual reverse edge would force
the forward edge to be `match`, which the duplicate-like guard excludes). -/
theorem likeUser_preserves_mutualSymm (db : DB) (a t : Nat) (h : MutualSymm db) :
    MutualSymm ((likeUser db a t).1) := by
  unfold likeUser
  split
  · exact h
  split
  · exact h
  split
  · exact h
  dsimp only
  split
  · exact h
  next hguard =>
    unfold MutualSymm
    split
    next hcond =>
      rw [getOrCreateChat_edges]
      dsimp only
      rw [hcond]
      exact edgesSymm_setMatchPair db.edges a t h
    next hcond =>
      dsimp only
      simp only [Bool.not_eq_true] at hcond
      rw [hcond]
      refine edgesSymm_setNonmutual db.edges a t _ rfl h ?_
      intro r hr
      by_contra hm
      simp only [Bool.not_eq_false] at hm
      obtain ⟨hract, hcount⟩ := h t a r hr hm
      exact hguard (Or.inr (by rw [hcount]; rfl))

/-- `rejectUser` preserves the bilaterality invariant: when a match is broken it
clears both directions to non-mutual edges, and otherwise the reverse side
cannot be a mutual edge (that would make `wasMatch` true). -/
theorem rejectUser_preserves_mutualSymm (db : DB) (a t : Nat) (h : MutualSymm db) :
    MutualSymm ((rejectUser db a t).1) := by
  unfold rejectUser
  split
  · exact h
  split
  · exact h
  split
  · exact h
  dsimp only
  split
  · exact h
  unfold MutualSymm
  dsimp only
  split
  · split
    next r heq =>
      exact edgesSymm_breakPair db.edges a t _ _ rfl rfl h
    next heq =>
      refine edgesSymm_setNonmutual db.edges a t _ rfl h ?_
      intro r hr
      rw [heq] at hr
      cases hr
  next hw =>
    refine edgesSymm_setNonmutual db.edges a t _ rfl h ?_
    intro r hr
    by_contra hm
    simp only [Bool.not_eq_false] at hm
    obtain ⟨hract, hcount⟩ := h t a r hr hm
    apply hw
    have hrev : Option.map Edge.action (db.edges t a) = some Action.matched := by
      simp [hr, hract]
    simp [hrev]

/-- `matchUser` preserves the bilaterality invariant: it either leaves the
edges unchanged or writes both directions as a mutual match. -/
theorem matchUser_preserves_mutualSymm (db : DB) (a t : Nat) (h : MutualSymm db) :
    MutualSymm ((matchUser db a t).1) := by
  unfold matchUser
  split
  · exact h
  split
  · exact h
  split
  · exact h
  split
  · exact h
  dsimp only
  unfold MutualSymm
  split <;> try split
  all_goals try split
  all_goals
    first
    | (rw [getOrCreateChat_edges]
       dsimp only
       exact makeMutualMatch_edgesSymm _ db.edges a t h)
    | (dsimp only
       exact makeMutualMatch_edgesSymm _ db.edges a t h)

/-- Claim C6 (amended): every operation of the current matching controller
(`likeUser`, `rejectUser`, `matchUser`) preserves the bilaterality invariant —
a `mutual = true` edge always has `action = match` and a mutual `match`
counterpart — hence any sequence of them does; the invariant is violated only
by the legacy bot-only `likeUser` of `src/unnamed/part_003` (see the
counterexample). -/
theorem applyOps_preserves_mutualSymm (db : DB) (ops : List EngineOp)
    (h : MutualSymm db) : MutualSymm (applyOps db ops) := by
  induction ops generalizing db with
  | nil => exact h
  | cons op rest ih =>
    refine ih (applyOp db op) ?_
    cases op with
    | like a t => exact likeUser_preserves_mutualSymm db a t h
    | reject a t => exact rejectUser_preserves_mutualSymm db a t h
    | directMatch a t => exact matchUser_preserves_mutualSymm db a t h

/-- `rejectUser` only ever adds one to a counter or clamps a decrement with
`GREATEST(..., 0)`, so it keeps every counter non-negative. -/
theorem rejectUser_preserves_nonneg (db : DB) (a t : Nat) (h : UsersNonneg db.users) :
    UsersNonneg ((rejectUser db a t).1.users) := by
  unfold rejectUser
  split
  · exact h
  split
  · exact h
  split
  · exact h
  dsimp only
  split
  · exact h
  dsimp only
  split
  · apply usersNonneg_updUser _ nonneg_reject_from_like
    split
    · exact usersNonneg_updUserPair h nonneg_matches_clamp
    · exact h
  · apply usersNonneg_updUser _ nonneg_reject_add
    split
    · exact usersNonneg_updUserPair h nonneg_matches_clamp
    · exact h

/-! ### Claim theorems -/

/-- Claim C2 (failing-input evaluation): the direct match operation
(`matchUser` / `makeMutualMatch`) forms a brand-new mutual match between user 1
and bot 2, yet increments `total_matches` only on the acting user 1; bot 2's
counter stays 0, contradicting the claim (and the source's own comment) that
both participants are incremented. -/
theorem matchUser_increments_actor_only :
    (matchUser dbW 1 2).2 = MatchResp.matchedOk true ∧
    (matchUser dbW 1 2).1.edges 1 2 = some ⟨Action.matched, true⟩ ∧
    (matchUser dbW 1 2).1.edges 2 1 = some ⟨Action.matched, true⟩ ∧
    ((matchUser dbW 1 2).1.users 1).map UserRec.total_matches = some 1 ∧
    ((matchUser dbW 1 2).1.users 2).map UserRec.total_matches = some 0 :=
  ⟨by decide, by decide, by decide, by decide, by decide⟩

/-- Claim C3 (counterexample): with the forward edge (1,2) already `match`,
a further like request is answered with the 400 error response
`"You have already liked or matched with this user."` (`success: false`), so it
is reported as an error — though the state is indeed left unchanged. -/
theorem relike_matched_reports_error_cex :
    (likeUser dbM 1 2).2 = LikeResp.alreadyLikedOrMatched ∧
    (likeUser dbM 1 2).1 = dbM :=
  ⟨by decide, rfl⟩

/-- Claim C5 (counterexample): starting from all-zero counters, the sequence
"user 1 likes bot 2 (instant match), bot 2 rejects user 1 (breaking the match
forces user 1's edge to `reject` without touching user 1's reject counter),
user 1 direct-matches bot 2" drives user 1's `total_rejects` to `-1`: the
`reject → match` transition of `matchUser` decrements with a bare
`User.increment` and no clamping. -/
theorem total_rejects_negative_cex :
    ((applyOps dbW [.like 1 2, .reject 2 1, .directMatch 1 2]).users 1).map
      UserRec.total_rejects = some (-1) := by decide

/-- Claim C6 (counterexample): the legacy `likeUser` of `src/unnamed/part_003`
upserts the forward edge as `action = like, is_mutual = true` and writes no
reverse row, so the resulting state has a mutual edge whose action is `like`
and whose counterpart is absent — bilaterality is violated by this engine
operation. -/
theorem mutual_like_without_counterpart_cex :
    (Part003.likeUser dbW 1 2).1.edges 1 2 = some ⟨Action.like, true⟩ ∧
    (Part003.likeUser dbW 1 2).1.edges 2 1 = none ∧
    ¬ MutualSymm (Part003.likeUser dbW 1 2).1 := by
  refine ⟨by decide, by decide, ?_⟩
  intro hsym
  have h := (hsym 1 2 ⟨Action.like, true⟩ (by decide) rfl).1
  exact absurd h (by decide)

/-- Claim C7 (failing-input evaluation): `sendMessage` from user 5 to user 3
creates the conversation row as `(participant_1 = 5, participant_2 = 3)` — not
in canonical lower-id-first order — and the canonical-order-only lookup of
`getOrCreateChatBetweenUsers` then fails to see it and creates a second row
`(3, 5)`: two Conversation rows for the unordered pair `{3, 5}`. -/
theorem sendMessage_nonCanonical_duplicate_chats :
    ((sendMessage dbP 5 none (some 3) "hi" none (.error ())).1.chats.map
      (fun c => (c.participant_1_id, c.participant_2_id))) = [(5, 3)] ∧
    ((getOrCreateChatBetweenUsers
        (sendMessage dbP 5 none (some 3) "hi" none (.error ())).1 3 5).1.chats.map
      (fun c => (c.participant_1_id, c.participant_2_id))) = [(5, 3), (3, 5)] :=
  ⟨by decide, by decide⟩

/-- Claim C8 (failing-input evaluation): a fully valid like (user 1 likes active
bot 2) commits its state — the mutual match edges and the provisioned chat
persist — but the handler then throws (`isBot` is not defined at line 206 of
`matchingController.js`), so the caller never receives the
`{target_user_id, target_kind, is_match, chat_id}` success payload. -/
theorem likeUser_valid_like_throws :
    (likeUser dbW 1 2).2 = LikeResp.thrown ∧
    (likeUser dbW 1 2).1.edges 1 2 = some ⟨Action.matched, true⟩ ∧
    (likeUser dbW 1 2).1.edges 2 1 = some ⟨Action.matched, true⟩ ∧
    (likeUser dbW 1 2).1.chats.map
      (fun c => (c.id, c.participant_1_id, c.participant_2_id)) = [(1, 1, 2)] :=
  ⟨by decide, by decide, by decide, by decide⟩

/-- Claim C9 (failing-input evaluation): after participant 1 blocks chat 1
(`chat_status_p1 = blocked`), a subsequent `sendMessage` from participant 1
into that chat still succeeds and appends the message — `sendMessage` never
consults the block status, so no permission error is raised. -/
theorem sendMessage_ignores_block :
    ((blockChat dbB 1 1).chats.map ChatRec.chat_status_p1) = [ChatStatus.blocked] ∧
    (sendMessage (blockChat dbB 1 1) 1 (some 1) none "hi" none (.error ())).2 =
      SendResp.ok 1 1 none ∧
    ((sendMessage (blockChat dbB 1 1) 1 (some 1) none "hi" none (.error ())).1.messages.map
      (fun m => (m.sender_id, m.receiver_id, m.message))) = [(1, 2, "hi")] :=
  ⟨by decide, by decide, by decide⟩

/-- Claim C5 (amended): the counters `total_likes`, `total_matches` and
`total_rejects` stay non-negative under every sequence of `likeUser` and
`rejectUser` operations, whose decrements are all clamped with
`GREATEST(..., 0)`; the unclamped decrement sits only in the direct match
operation, which is excluded here (see the counterexample). -/
theorem likeReject_ops_keep_counters_nonneg (db : DB) (ops : List EngineOp)
    (h : CountersNonneg db)
    (hops : ∀ op ∈ ops, op.isDirectMatch = false) :
    CountersNonneg (applyOps db ops) := by
  induction ops generalizing db with
  | nil => exact h
  | cons op rest ih =>
    refine ih (applyOp db op) ?_ (fun o ho => hops o (List.mem_cons_of_mem _ ho))
    cases op with
    | like a t => exact likeUser_preserves_nonneg db a t h
    | reject a t => exact rejectUser_preserves_nonneg db a t h
    | directMatch a t =>
      have hd := hops _ (List.mem_cons_self _ _)
      simp [EngineOp.isDirectMatch] at hd

/-- Witness for the amended C5 at a concrete state and operation list. -/
theorem likeReject_ops_keep_counters_nonneg_witness :
    CountersNonneg (applyOps dbW [.like 1 2, .reject 1 2]) := by
  refine likeReject_ops_keep_counters_nonneg dbW _ ?_ ?_
  · intro i u hu
    by_cases h1 : i = 1
    · subst h1
      simp [dbW] at hu
      exact hu ▸ ⟨by decide, by decide, by decide⟩
    · by_cases h2 : i = 2
      · subst h2
        simp [dbW, h1] at hu
        exact hu ▸ ⟨by decide, by decide, by decide⟩
      · simp [dbW, h1, h2] at hu
  · intro op hop
    simp only [List.mem_cons, List.not_mem_nil, or_false] at hop
    rcases hop with rfl | rfl <;> rfl

/-- Witness for the amended C6 at a concrete state and operation list. -/
theorem applyOps_preserves_mutualSymm_witness :
    MutualSymm (applyOps dbW [.like 1 2, .reject 2 1, .directMatch 1 2]) := by
  refine applyOps_preserves_mutualSymm dbW _ ?_
  intro a b e he
  simp [dbW] at he

/-- Claim C3 (amended): for every actor whose forward edge to an existing active
target already records `like` or `match`, a further like request is refused with
the 400 invalid-operation error `"You have already liked or matched with this
user."` and changes nothing: no edge, counter, chat or message is touched. -/
theorem relike_after_like_or_match_rejected (db : DB) (a t : Nat) (target : UserRec)
    (hne : a ≠ t)
    (htarget : db.users t = some target)
    (hactive : target.is_active = true)
    (hstatus : target.status = 1)
    (hprev : (db.edges a t).map Edge.action = some Action.like ∨
      (db.edges a t).map Edge.action = some Action.matched) :
    likeUser db a t = (db, LikeResp.alreadyLikedOrMatched) := by
  unfold likeUser
  rw [if_neg hne, htarget]
  dsimp only
  rw [if_neg (by simp [hactive, hstatus]), if_pos hprev]

/-- Witness for the amended C3: re-liking the matched bot 2 from the matched
state `dbM` is refused with the error and leaves the state untouched. -/
theorem relike_after_like_or_match_rejected_witness :
    likeUser dbM 1 2 = (dbM, LikeResp.alreadyLikedOrMatched) :=
  relike_after_like_or_match_rejected dbM 1 2 ⟨.bot, true, 1, 0, 1, 0⟩
    (by decide) (by decide) rfl rfl (Or.inr (by decide))

/-- Claim C1: for every like request from actor `a` on an existing active target
`t` (`a ≠ t`, no prior forward like/match): if the target's type is `bot` the
operation writes an immediate mutual match on both edges; if the target is
non-automated it writes the mutual match on both edges exactly when the reverse
edge already records `like`, and otherwise leaves the forward edge as a
non-mutual `like` with the reverse edge untouched. -/
theorem likeUser_reciprocity (db : DB) (a t : Nat) (target : UserRec)
    (hne : a ≠ t)
    (htarget : db.users t = some target)
    (hactive : target.is_active = true)
    (hstatus : target.status = 1)
    (hprev : (db.edges a t).map Edge.action ≠ some Action.like ∧
      (db.edges a t).map Edge.action ≠ some Action.matched) :
    (target.utype = UType.bot →
      (likeUser db a t).1.edges a t = some ⟨Action.matched, true⟩ ∧
      (likeUser db a t).1.edges t a = some ⟨Action.matched, true⟩) ∧
    (target.utype = UType.real →
      ((db.edges t a).map Edge.action = some Action.like →
        (likeUser db a t).1.edges a t = some ⟨Action.matched, true⟩ ∧
        (likeUser db a t).1.edges t a = some ⟨Action.matched, true⟩) ∧
      ((db.edges t a).map Edge.action ≠ some Action.like →
        (likeUser db a t).1.edges a t = some ⟨Action.like, false⟩ ∧
        (likeUser db a t).1.edges t a = db.edges t a)) := by
  unfold likeUser
  rw [if_neg hne, htarget]
  dsimp only
  rw [if_neg (by simp [hactive, hstatus]), if_neg (not_or.mpr hprev)]
  dsimp only
  constructor
  · intro hbot
    have hb : decide (target.utype = UType.bot) = true := by rw [hbot]; rfl
    simp only [hb, Bool.true_or, if_true]
    rw [getOrCreateChat_edges]
    dsimp only
    refine ⟨?_, ?_⟩
    · rw [setEdge_ne _ _ _ _ _ _ (fun hc => hne hc.1), setEdge_self]
    · rw [setEdge_self]
  · intro hreal
    have hb : decide (target.utype = UType.bot) = false := by rw [hreal]; rfl
    constructor
    · intro hrev
      have hr : decide (Option.map Edge.action (db.edges t a) = some Action.like) = true := by
        rw [hrev]; rfl
      simp only [hb, hr, Bool.false_or, Bool.not_false, Bool.true_and, if_true]
      rw [getOrCreateChat_edges]
      dsimp only
      refine ⟨?_, ?_⟩
      · rw [setEdge_ne _ _ _ _ _ _ (fun hc => hne hc.1), setEdge_self]
      · rw [setEdge_self]
    · intro hrev
      have hr : decide (Option.map Edge.action (db.edges t a) = some Action.like) = false :=
        decide_eq_false hrev
      simp only [hb, hr, Bool.false_or, Bool.not_false, Bool.true_and, Bool.and_false]
      simp only [Bool.false_eq_true, if_false]
      refine ⟨?_, ?_⟩
      · rw [setEdge_self]
      · rw [setEdge_ne _ _ _ _ _ _ (fun hc => hne hc.1.symm)]

/-- Witness for C1: from the fresh state `dbW`, user 1 liking the active bot 2
yields the immediate mutual match on both edges. -/
theorem likeUser_reciprocity_witness :
    (likeUser dbW 1 2).1.edges 1 2 = some ⟨Action.matched, true⟩ ∧
    (likeUser dbW 1 2).1.edges 2 1 = some ⟨Action.matched, true⟩ :=
  (likeUser_reciprocity dbW 1 2 (freshUser .bot) (by decide) (by decide) (by decide)
    (by decide) ⟨by decide, by decide⟩).1 rfl

/-- Claim C4: for every reject request from `a` on an existing active target
`t` (not an idempotent re-reject): the forward edge becomes `reject` with
`mutual = false`; if the pair was previously matched (either edge records
`match`), a present reverse edge has `mutual` cleared and its action forced to
`reject` exactly when it had been `match` (a plain reverse `like` keeps its
action), and `total_matches` is decremented clamped at 0 on both `a` and `t`. -/
theorem rejectUser_break_match (db : DB) (a t : Nat) (target : UserRec)
    (hne : a ≠ t)
    (htarget : db.users t = some target)
    (hactive : target.is_active = true)
    (hstatus : target.status = 1)
    (hprev : (db.edges a t).map Edge.action ≠ some Action.reject) :
    (rejectUser db a t).1.edges a t = some ⟨Action.reject, false⟩ ∧
    ((db.edges a t).map Edge.action = some Action.matched ∨
        (db.edges t a).map Edge.action = some Action.matched →
      (∀ r, db.edges t a = some r →
        (rejectUser db a t).1.edges t a =
          some ⟨if r.action = Action.matched then Action.reject else r.action, false⟩) ∧
      ((rejectUser db a t).1.users a).map UserRec.total_matches =
        (db.users a).map (fun u => max (u.total_matches - 1) 0) ∧
      ((rejectUser db a t).1.users t).map UserRec.total_matches =
        (db.users t).map (fun u => max (u.total_matches - 1) 0)) := by
  unfold rejectUser
  rw [if_neg hne, htarget]
  dsimp only
  rw [if_neg (by simp [hactive, hstatus]), if_neg hprev]
  dsimp only
  constructor
  · split
    · cases hr : db.edges t a
      · dsimp only
        rw [setEdge_self]
      · dsimp only
        rw [setEdge_ne _ _ _ _ _ _ (fun hc => hne hc.1), setEdge_self]
    · rw [setEdge_self]
  · intro hwas
    have hwb : (decide ((db.edges a t).map Edge.action = some Action.matched) ||
        decide ((db.edges t a).map Edge.action = some Action.matched)) = true := by
      rcases hwas with hw | hw <;> simp [hw]
    simp only [hwb, if_true]
    refine ⟨?_, ?_, ?_⟩
    · intro r hr
      rw [hr]
      dsimp only
      rw [setEdge_self]
    · split <;>
        (cases hu : db.users a <;> simp [updUser, updUserPair, hu])
    · split <;>
        simp [updUser, updUserPair, Ne.symm hne, htarget]

/-- Witness for C4: rejecting the matched bot 2 from `dbM` rewrites both edges
to non-mutual `reject` and clamps both match counters down to 0. -/
theorem rejectUser_break_match_witness :
    (rejectUser dbM 1 2).1.edges 1 2 = some ⟨Action.reject, false⟩ ∧
    (rejectUser dbM 1 2).1.edges 2 1 = some ⟨Action.reject, false⟩ ∧
    ((rejectUser dbM 1 2).1.users 1).map UserRec.total_matches = some 0 ∧
    ((rejectUser dbM 1 2).1.users 2).map UserRec.total_matches = some 0 := by
  have h := rejectUser_break_match dbM 1 2 ⟨.bot, true, 1, 0, 1, 0⟩
    (by decide) (by decide) rfl rfl (by decide)
  have h2 := h.2 (Or.inl (by decide))
  refine ⟨h.1, ?_, ?_, ?_⟩
  · have he := h2.1 ⟨Action.matched, true⟩ (by decide)
    rw [he]
    decide
  · rw [h2.2.1]
    decide
  · rw [h2.2.2]
    decide

/-- Claim C10: for every valid send into a chat whose recipient is a bot, the
human message is committed before the bot-reply attempt — its stored prefix is
the same whatever the Reply Generator returns — and when the generator fails
the failure is swallowed: the call still returns the success payload, the human
message remains stored, and no bot message is appended. -/
theorem sendMessage_bot_reply_failure_swallowed (db : DB) (uid cid : Nat)
    (chat : ChatRec) (sender receiver : UserRec) (msg : String)
    (hmsg : isBlank msg = false)
    (hchat : db.chats.find? (fun c => c.id == cid) = some chat)
    (hmember : chat.participant_1_id = uid ∨ chat.participant_2_id = uid)
    (hsender : db.users uid = some sender)
    (hrecv : db.users (if chat.participant_1_id = uid then chat.participant_2_id
        else chat.participant_1_id) = some receiver)
    (hbot : receiver.utype = UType.bot) :
    (∀ gen, ((sendMessage db uid (some cid) none msg none gen).1.messages).take
        (db.messages.length + 1) =
      db.messages ++
        [⟨db.nextMessageId, chat.id, uid,
          (if chat.participant_1_id = uid then chat.participant_2_id
            else chat.participant_1_id), msg, none, .real, "sent"⟩]) ∧
    (sendMessage db uid (some cid) none msg none (.error ())).2 =
      SendResp.ok chat.id db.nextMessageId none ∧
    (sendMessage db uid (some cid) none msg none (.error ())).1.messages =
      db.messages ++
        [⟨db.nextMessageId, chat.id, uid,
          (if chat.participant_1_id = uid then chat.participant_2_id
            else chat.participant_1_id), msg, none, .real, "sent"⟩] := by
  have hne' : ¬(chat.participant_1_id ≠ uid ∧ chat.participant_2_id ≠ uid) := by
    rcases hmember with h | h <;> simp [h]
  have hred : ∀ gen, sendMessage db uid (some cid) none msg none gen =
      sendMessageCore db db uid chat
        (if chat.participant_1_id = uid then chat.participant_2_id
          else chat.participant_1_id) msg none gen := by
    intro gen
    unfold sendMessage
    rw [if_neg (by simp [hmsg])]
    dsimp only
    rw [hchat]
  refine ⟨?_, ?_, ?_⟩
  · intro gen
    rw [hred]
    unfold sendMessageCore
    rw [if_neg hne', hsender, hrecv]
    dsimp only
    rw [if_pos hbot]
    cases gen with
    | error e =>
      dsimp only
      simp only [Option.map_none']
      rw [List.take_of_length_le (by simp)]
    | ok txt =>
      dsimp only
      simp only [Option.map_none']
      have hlen : db.messages.length + 1 =
          (db.messages ++ [(⟨db.nextMessageId, chat.id, uid,
            (if chat.participant_1_id = uid then chat.participant_2_id
              else chat.participant_1_id), msg, none, .real, "sent"⟩ : MessageRec)]).length := by
        simp
      rw [hlen, List.take_left]
  · rw [hred]
    unfold sendMessageCore
    rw [if_neg hne', hsender, hrecv]
    dsimp only
    rw [if_pos hbot]
  · rw [hred]
    unfold sendMessageCore
    rw [if_neg hne', hsender, hrecv]
    dsimp only
    rw [if_pos hbot]
    simp only [Option.map_none']

/-- Witness for C10: user 1 sends "hey" into chat 1 with bot 2; the generator
fails, yet the call succeeds with the human message stored and no bot reply. -/
theorem sendMessage_bot_reply_failure_swallowed_witness :
    (sendMessage dbC10 1 (some 1) none "hey" none (.error ())).2 =
      SendResp.ok 1 1 none ∧
    (sendMessage dbC10 1 (some 1) none "hey" none (.error ())).1.messages =
      dbC10.messages ++ [⟨1, 1, 1, 2, "hey", none, .real, "sent"⟩] := by
  have h := sendMessage_bot_reply_failure_swallowed dbC10 1 1
    ⟨1, 1, 2, none, 0, 0, false, false, .active, .active⟩
    (freshUser .real) (freshUser .bot) "hey"
    (by decide) (by decide) (Or.inl rfl) (by decide) (by decide) rfl
  exact ⟨h.2.1, h.2.2⟩

end DatingApp
